import Mathlib

/-!
Shallow embedding of the carousel-navigation and modal-lifecycle core of
`src/property-test-runner.js` (a browser content-browsing page).  Times,
pixel positions and velocities are modelled as rationals; the event-loop
is modelled by explicit sequences of handler invocations and
animation-frame callbacks; JavaScript numbers that can become NaN or
Infinity (the aria-label percentage) are modelled by an explicit `JSNum`
type.  All definitions are translated from the source file; theorems at
the end settle the specification claims.
-/

namespace Spec2Proof

/-! ## Animated scrolling (`smoothScrollTo`, `smoothScrollToPosition`)

The source starts a `requestAnimationFrame` chain per call; each frame
callback computes `progress = min(elapsed/duration, 1)`, applies an easing
curve, writes `slider.scrollLeft`, and reschedules itself while
`progress < 1`.  We model a row's animation system as the list of chains
started so far (in registration order) together with the current
`scrollLeft`; an animation-frame tick runs every still-live callback in
registration order. -/

/-- The two easing curves used by the source: `easeInOutCubic` in
`smoothScrollTo` (button navigation) and `easeOutCubic` in
`smoothScrollToPosition` (momentum settling). -/
inductive Easing where
  | inOutCubic : Easing
  | outCubic : Easing
deriving DecidableEq, Repr

/-- `easeInOutCubic` / `easeOutCubic` from the source, with `Math.pow`
expanded to repeated multiplication. -/
def easeval : Easing → ℚ → ℚ
  | Easing.inOutCubic, p =>
      if p < 1/2 then 4 * p * p * p
      else 1 - (-2 * p + 2) * (-2 * p + 2) * (-2 * p + 2) / 2
  | Easing.outCubic, p => 1 - (1 - p) * (1 - p) * (1 - p)

/-- One `requestAnimationFrame` chain as created by `smoothScrollTo` /
`smoothScrollToPosition`: captured start position, target, start time and
duration, plus whether the chain has terminated (`progress` reached 1). -/
structure Anim where
  startPos : ℚ
  target : ℚ
  startTime : ℚ
  duration : ℚ
  easing : Easing
  done : Bool
deriving DecidableEq, Repr

/-- `progress = Math.min(elapsed / duration, 1)` for a chain at frame
time `t`. -/
def animProgress (a : Anim) (t : ℚ) : ℚ :=
  min ((t - a.startTime) / a.duration) 1

/-- The value the chain writes into `slider.scrollLeft` at frame time
`t`: `startPosition + distance * eased(progress)`. -/
def animValue (a : Anim) (t : ℚ) : ℚ :=
  a.startPos + (a.target - a.startPos) * easeval a.easing (animProgress a t)

/-- A row's animation state: the current `slider.scrollLeft`, every
`requestAnimationFrame` chain started so far (registration order), and a
count of chains that have run to completion. -/
structure RowSim where
  scrollLeft : ℚ
  anims : List Anim
  completions : ℕ
deriving DecidableEq, Repr

/-- Run one animation-frame tick over the chains in registration order:
a live chain writes `scrollLeft` and, when its progress has reached 1,
terminates (counted as a completion).  Returns the updated chain list,
the final `scrollLeft`, and the completion count. -/
def frameList (t : ℚ) : List Anim → ℚ → ℕ → List Anim × ℚ × ℕ
  | [], sl, comp => ([], sl, comp)
  | a :: rest, sl, comp =>
      if a.done then
        let r := frameList t rest sl comp
        (a :: r.1, r.2)
      else
        let sl1 := animValue a t
        if animProgress a t < 1 then
          let r := frameList t rest sl1 comp
          (a :: r.1, r.2)
        else
          let r := frameList t rest sl1 (comp + 1)
          ({ a with done := true } :: r.1, r.2)

/-- One animation-frame tick at time `t` for the whole row. -/
def frame (s : RowSim) (t : ℚ) : RowSim :=
  let r := frameList t s.anims s.scrollLeft s.completions
  ⟨r.2.1, r.1, r.2.2⟩

/-- Calling `smoothScrollTo` / `smoothScrollToPosition` at time `t`:
captures `startPosition = slider.scrollLeft` and registers a new frame
chain.  Nothing else in the source is touched — in particular no
existing chain is stopped or flagged. -/
def startAnim (s : RowSim) (target duration : ℚ) (e : Easing) (t : ℚ) : RowSim :=
  { s with anims := s.anims ++ [⟨s.scrollLeft, target, t, duration, e, false⟩] }

/-- Number of chains still live (not yet terminated) on a row. -/
def liveCount (s : RowSim) : ℕ :=
  (s.anims.filter (fun a => !a.done)).length

/-! ## Row buttons (`setupRowScrolling`, `updateScrollButtons`) -/

/-- `getScrollAmount` from `setupRowScrolling`: per-click distance from
the viewport tier (`window.innerWidth`). -/
def getScrollAmount (innerWidth : ℚ) : ℚ :=
  let cardWidth : ℚ := if innerWidth < 640 then 150 else if innerWidth < 1024 then 180 else 200
  let gap : ℚ := if innerWidth < 640 then 12 else if innerWidth < 1024 then 16 else 20
  let cardsToScroll : ℚ := if innerWidth < 640 then 2 else if innerWidth < 1024 then 3 else 4
  (cardWidth + gap) * cardsToScroll

/-- The right-button click handler's target computation:
`Math.min(scrollWidth - clientWidth, scrollLeft + scrollAmount)`. -/
def clickRightTarget (scrollLeft scrollWidth clientWidth amount : ℚ) : ℚ :=
  min (scrollWidth - clientWidth) (scrollLeft + amount)

/-- The left-button click handler's target computation:
`Math.max(0, scrollLeft - scrollAmount)`. -/
def clickLeftTarget (scrollLeft amount : ℚ) : ℚ :=
  max 0 (scrollLeft - amount)

/-- A JavaScript number as produced by the aria-label percentage
computation: an ordinary (rational-modelled) value, NaN, or a signed
infinity. -/
inductive JSNum where
  | num : ℚ → JSNum
  | nan : JSNum
  | inf : Bool → JSNum
deriving DecidableEq, Repr

/-- JavaScript division on our number model: division by zero yields NaN
for a zero numerator and a signed infinity otherwise. -/
def jsDiv (a b : ℚ) : JSNum :=
  if b = 0 then (if a = 0 then JSNum.nan else JSNum.inf (0 < a)) else JSNum.num (a / b)

/-- Multiplication of a JS number by a nonzero ordinary constant
(the `* 100` in `updateScrollButtons`). -/
def jsMulConst (x : JSNum) (c : ℚ) : JSNum :=
  match x with
  | JSNum.num q => JSNum.num (q * c)
  | JSNum.nan => JSNum.nan
  | JSNum.inf s => if c = 0 then JSNum.nan else JSNum.inf (if 0 < c then s else !s)

/-- `Math.round` (half rounds toward +∞); NaN and infinities pass
through. -/
def jsRound (x : JSNum) : JSNum :=
  match x with
  | JSNum.num q => JSNum.num (⌊q + 1/2⌋ : ℤ)
  | JSNum.nan => JSNum.nan
  | JSNum.inf s => JSNum.inf s

/-- The slider geometry read at the top of `updateScrollButtons`. -/
structure RowMetrics where
  scrollLeft : ℚ
  scrollWidth : ℚ
  clientWidth : ℚ
deriving DecidableEq, Repr

/-- The left-button condition in `updateScrollButtons`:
`scrollLeft <= tolerance` with `tolerance = 2` (the spec's `isAtStart`). -/
def isAtStart (m : RowMetrics) : Bool :=
  m.scrollLeft ≤ 2

/-- The right-button condition in `updateScrollButtons`:
`scrollLeft + clientWidth >= scrollWidth - tolerance` (the spec's
`isAtEnd`). -/
def isAtEnd (m : RowMetrics) : Bool :=
  m.scrollLeft + m.clientWidth ≥ m.scrollWidth - 2

/-- The visual/accessibility state `updateScrollButtons` writes onto one
button. -/
structure BtnVisual where
  opacityDimmed : Bool
  pointerEventsNone : Bool
  disabled : Bool
  ariaHidden : Bool
deriving DecidableEq, Repr

/-- The disabled appearance (`opacity 0.3`, `pointer-events none`,
`disabled`, `aria-hidden "true"`). -/
def btnDisabled : BtnVisual := ⟨true, true, true, true⟩

/-- The enabled appearance (styles cleared, `aria-hidden "false"`). -/
def btnEnabled : BtnVisual := ⟨false, false, false, false⟩

/-- `updateScrollButtons` as a pure function of the slider geometry:
left-button state, right-button state, and the percentage written into
both aria-labels
(`Math.round((scrollLeft / (scrollWidth - clientWidth)) * 100)`). -/
def updateScrollButtons (m : RowMetrics) : BtnVisual × BtnVisual × JSNum :=
  let left := if isAtStart m then btnDisabled else btnEnabled
  let right := if isAtEnd m then btnDisabled else btnEnabled
  let pct := jsRound (jsMulConst (jsDiv m.scrollLeft (m.scrollWidth - m.clientWidth)) 100)
  (left, right, pct)

/-! ## Touch gestures (`setupTouchScrolling`) -/

/-- The closure variables of `setupTouchScrolling` that the touch
handlers read and write. -/
structure TouchState where
  startX : ℚ
  startY : ℚ
  startScrollLeft : ℚ
  startTime : ℚ
  lastX : ℚ
  lastTime : ℚ
  velocityX : ℚ
  isScrolling : Bool
  isDragging : Bool
deriving DecidableEq, Repr

/-- The slider geometry the touch handlers read
(`scrollWidth`, `clientWidth`). -/
structure SliderGeom where
  scrollWidth : ℚ
  clientWidth : ℚ
deriving DecidableEq, Repr

/-- `handleTouchStart`: records the contact origin and resets the
session flags. -/
def handleTouchStart (x y scrollLeft t : ℚ) : TouchState :=
  { startX := x, startY := y, startScrollLeft := scrollLeft, startTime := t
    lastX := x, lastTime := t, velocityX := 0
    isScrolling := false, isDragging := false }

/-- `handleTouchMove` at a sample `(x, y)` arriving at time `t`, with the
slider currently at `scrollLeft`.  Returns the updated closure state and
the slider's `scrollLeft` after the handler.  Mirrors the source: while
the session is undecided, a horizontally-dominant sample beyond 10px sets
`isScrolling`/`isDragging`; a vertically-dominant sample beyond 10px
returns early (no state is recorded); a dragging sample recomputes the
velocity from the last two samples and writes the clamped offset. -/
def handleTouchMove (st : TouchState) (g : SliderGeom) (scrollLeft x y t : ℚ) :
    TouchState × ℚ :=
  let deltaX := st.startX - x
  let deltaY := st.startY - y
  if !st.isScrolling ∧ !st.isDragging ∧ |deltaY| > |deltaX| ∧ |deltaY| > 10 then
    (st, scrollLeft)
  else
    let st1 :=
      if !st.isScrolling ∧ !st.isDragging ∧ |deltaX| > |deltaY| ∧ |deltaX| > 10 then
        { st with isScrolling := true, isDragging := true }
      else st
    if st1.isScrolling ∧ st1.isDragging then
      let timeDelta := t - st1.lastTime
      let v := if timeDelta > 0 then (st1.lastX - x) / timeDelta else st1.velocityX
      let newScrollLeft :=
        max 0 (min (g.scrollWidth - g.clientWidth) (st1.startScrollLeft + deltaX))
      ({ st1 with velocityX := v, lastX := x, lastTime := t }, newScrollLeft)
    else
      (st1, scrollLeft)

/-- `handleTouchEnd` at time `t` with the slider at `scrollLeft`.
Returns the updated closure state, the slider's `scrollLeft` after the
handler (the handler itself never writes it), and the momentum request
handed to `smoothScrollToPosition` — `some (target, 400)` exactly when
`|velocityX| > 0.5` and the gesture duration is under 300ms, with
`target = clamp(scrollLeft + velocityX * 200, 0, maxScroll)`. -/
def handleTouchEnd (st : TouchState) (g : SliderGeom) (scrollLeft t : ℚ) :
    TouchState × ℚ × Option (ℚ × ℚ) :=
  if !st.isDragging then
    (st, scrollLeft, none)
  else
    let duration := t - st.startTime
    let req :=
      if |st.velocityX| > 1/2 ∧ duration < 300 then
        let momentum := st.velocityX * 200
        let targetScrollLeft := scrollLeft + momentum
        let maxScroll := g.scrollWidth - g.clientWidth
        some (max 0 (min maxScroll targetScrollLeft), (400 : ℚ))
      else none
    ({ st with isDragging := false, isScrolling := false }, scrollLeft, req)

/-! ## Content data (`getContentById`, `addToMyList`, `removeFromMyList`) -/

/-- A content record; only the identifier matters for the claims, the
title stands in for the remaining display fields. -/
structure ContentRecord where
  id : String
  title : String
deriving DecidableEq, Repr

/-- One category of `AppState.contentData.categories`. -/
structure Category where
  id : String
  items : List ContentRecord
deriving DecidableEq, Repr

/-- `AppState.contentData`: optional hero record plus the category
list. -/
structure ContentData where
  hero : Option ContentRecord
  categories : List Category
deriving DecidableEq, Repr

/-- The category-loop of `getContentById`: first matching item across the
categories in order. -/
def findInCategories : List Category → String → Option ContentRecord
  | [], _ => none
  | c :: rest, cid =>
      match c.items.find? (fun item => item.id == cid) with
      | some item => some item
      | none => findInCategories rest cid

/-- `getContentById`: `null` when `AppState.contentData` is null,
otherwise the hero record when its id matches, otherwise the first match
across the categories. -/
def getContentById (d : Option ContentData) (contentId : String) : Option ContentRecord :=
  match d with
  | none => none
  | some data =>
      match data.hero with
      | some h => if h.id == contentId then some h else findInCategories data.categories contentId
      | none => findInCategories data.categories contentId

/-- The `categories.find(cat => cat.id === 'my-list')` lookup: first
category with the given id. -/
def findCat : List Category → String → Option Category
  | [], _ => none
  | c :: rest, cid => if c.id == cid then some c else findCat rest cid

/-- In-place mutation of the first `my-list` category's `items` array,
rendered functionally: applies `f` to the items of the first category
whose id is `my-list`, leaving everything else untouched. -/
def updateMyList : List Category → (List ContentRecord → List ContentRecord) → List Category
  | [], _ => []
  | c :: rest, f =>
      if c.id == "my-list" then { c with items := f c.items } :: rest
      else c :: updateMyList rest f

/-- `addToMyList` (the `localStorage` write is outside the model): fails
when the id does not resolve, when no `my-list` category exists, or when
the item is already in the list; otherwise pushes the resolved record and
returns true. -/
def addToMyList (data : ContentData) (contentId : String) : ContentData × Bool :=
  match getContentById (some data) contentId with
  | none => (data, false)
  | some content =>
      match findCat data.categories "my-list" with
      | none => (data, false)
      | some myList =>
          if myList.items.any (fun item => item.id == contentId) then (data, false)
          else
            ({ data with categories := updateMyList data.categories (fun items => items ++ [content]) },
             true)

/-- `removeFromMyList`: reassigns the first `my-list` category's items to
the id-filtered array and reports whether the length decreased. -/
def removeFromMyList (data : ContentData) (contentId : String) : ContentData × Bool :=
  match findCat data.categories "my-list" with
  | none => (data, false)
  | some myList =>
      let newItems := myList.items.filter (fun item => !(item.id == contentId))
      let removed := newItems.length < myList.items.length
      ({ data with categories := updateMyList data.categories (fun _ => newItems) }, removed)

/-! ## Modal lifecycle (`openModal`, `setupModalInteractions`,
`removeModalEventListeners`, `closeModal`)

The modal DOM and listener bookkeeping is modelled explicitly: listeners
attached to `document` (the keydown handler) and to the overlay (the
overlay-click handler) are lists of handler identities in attachment
order, and `this.modalKeydownHandler` / `this.modalOverlayClickHandler`
are the stored references that `removeModalEventListeners` detaches.
The `setTimeout(..., 100)` that populates the modal body is modelled as
a pending-population queue whose entries fire later as separate events.
The modal overlay and content elements are assumed present (the
missing-element early return of `openModal` is not modelled). -/

/-- The modal-relevant mutable state of the page. -/
structure ModalSim where
  /-- `AppState.currentModal` (the active content id, null when closed). -/
  currentModal : Option String
  /-- Whether the overlay has the `hidden` class. -/
  overlayHidden : Bool
  /-- The overlay's `aria-hidden` attribute. -/
  overlayAriaHidden : Bool
  /-- Whether `document.body.style.overflow` is `'hidden'` (page scroll locked). -/
  scrollLocked : Bool
  /-- Whether `document.body` carries the `modal-open` class. -/
  bodyModalOpen : Bool
  /-- Whether the modal body currently shows the loading placeholder. -/
  loading : Bool
  /-- The content record currently populated into the modal body, if any. -/
  populated : Option ContentRecord
  /-- Deferred population callbacks scheduled by `openModal`'s `setTimeout`, oldest first. -/
  pendingPop : List ContentRecord
  /-- `this.modalKeydownHandler`: the stored keydown handler reference. -/
  storedKeydown : Option ℕ
  /-- Keydown handlers currently attached to `document`, in attachment order. -/
  attachedKeydown : List ℕ
  /-- `this.modalOverlayClickHandler`: the stored overlay-click handler reference. -/
  storedOverlay : Option ℕ
  /-- Click handlers currently attached to the overlay, in attachment order. -/
  attachedOverlay : List ℕ
  /-- Source of fresh handler identities. -/
  nextId : ℕ
  /-- Notifications surfaced via `showNotification`, oldest first. -/
  notifications : List String
deriving DecidableEq, Repr

/-- The page before any modal interaction: modal closed, nothing
attached, nothing pending. -/
def ModalSim.init : ModalSim :=
  { currentModal := none, overlayHidden := true, overlayAriaHidden := true
    scrollLocked := false, bodyModalOpen := false
    loading := false, populated := none, pendingPop := []
    storedKeydown := none, attachedKeydown := []
    storedOverlay := none, attachedOverlay := []
    nextId := 0, notifications := [] }

/-- Detach one occurrence of a stored handler, as
`removeEventListener` does (a no-op when the handler is not attached). -/
def detach (stored : Option ℕ) (attached : List ℕ) : List ℕ :=
  match stored with
  | none => attached
  | some h => attached.erase h

/-- `removeModalEventListeners`: detaches the stored keydown and
overlay-click handlers (the stored references themselves are kept). -/
def removeModalEventListeners (s : ModalSim) : ModalSim :=
  { s with attachedKeydown := detach s.storedKeydown s.attachedKeydown
           attachedOverlay := detach s.storedOverlay s.attachedOverlay }

/-- `setupModalInteractions`: first removes any existing listeners, then
attaches a fresh overlay-click handler and a fresh document keydown
handler, storing both references. -/
def setupModalInteractions (s : ModalSim) : ModalSim :=
  let s1 := removeModalEventListeners s
  { s1 with storedOverlay := some s1.nextId
            attachedOverlay := s1.attachedOverlay ++ [s1.nextId]
            storedKeydown := some (s1.nextId + 1)
            attachedKeydown := s1.attachedKeydown ++ [s1.nextId + 1]
            nextId := s1.nextId + 2 }

/-- `openModal(contentId)` with data `d`: on an unresolved id, surfaces a
notification and returns with the state otherwise untouched; on success,
sets `AppState.currentModal`, shows the loading placeholder, reveals the
overlay, locks page scroll, and schedules the deferred population. -/
def openModal (d : Option ContentData) (contentId : String) (s : ModalSim) : ModalSim :=
  match getContentById d contentId with
  | none => { s with notifications := s.notifications ++ ["Content not found"] }
  | some content =>
      { s with currentModal := some contentId
               loading := true, populated := none
               overlayHidden := false, overlayAriaHidden := false
               scrollLocked := true, bodyModalOpen := true
               pendingPop := s.pendingPop ++ [content] }

/-- The oldest scheduled `setTimeout` population callback fires: it
unconditionally replaces the modal body with the content and runs
`setupModalInteractions` — the source performs no phase check here. -/
def firePopulation (s : ModalSim) : ModalSim :=
  match s.pendingPop with
  | [] => s
  | content :: rest =>
      setupModalInteractions
        { s with populated := some content, loading := false, pendingPop := rest }

/-- `closeModal`: removes the stored listeners, hides the overlay,
clears `AppState.currentModal`, and unlocks page scroll. -/
def closeModal (s : ModalSim) : ModalSim :=
  let s1 := removeModalEventListeners s
  { s1 with overlayHidden := true, overlayAriaHidden := true
            currentModal := none
            scrollLocked := false, bodyModalOpen := false }

/-- Whether a modal-scoped keydown listener fires (runs at all) for a
keypress on `document`. -/
def escapeListenerFires (s : ModalSim) : Bool :=
  !s.attachedKeydown.isEmpty

/-- An Escape keypress on `document`: each attached modal keydown
handler runs `if (e.key === 'Escape' && AppState.currentModal) closeModal()`;
after a first `closeModal`, `currentModal` is null, so at most one close
takes effect. -/
def pressEscape (s : ModalSim) : ModalSim :=
  if !s.attachedKeydown.isEmpty ∧ s.currentModal.isSome then closeModal s else s

/-! ## Helper lemmas -/

/-- Both easing curves evaluate to 1 at progress 1, so an animation's
final frame writes exactly its target. -/
theorem easeval_one (e : Easing) : easeval e 1 = 1 := by
  cases e <;> norm_num [easeval]

/-- Once at least the full duration has elapsed, a frame of a chain
writes exactly the chain's target offset. -/
theorem animValue_end (a : Anim) (t : ℚ) (hdur : 0 < a.duration)
    (h : a.duration ≤ t - a.startTime) : animValue a t = a.target := by
  have hprog : animProgress a t = 1 := by
    have : (1 : ℚ) ≤ (t - a.startTime) / a.duration := (one_le_div hdur).mpr h
    simp [animProgress, min_eq_right this]
  rw [animValue, hprog, easeval_one]
  ring

/-- A record found by the category loop of `getContentById` carries the
id it was looked up by. -/
theorem findInCategories_id (cats : List Category) (cid : String) (c : ContentRecord)
    (h : findInCategories cats cid = some c) : c.id = cid := by
  induction cats with
  | nil => simp [findInCategories] at h
  | cons hd tl ih =>
    simp only [findInCategories] at h
    cases hfind : hd.items.find? (fun item => item.id == cid) with
    | none => rw [hfind] at h; exact ih h
    | some item =>
      rw [hfind] at h
      have := List.find?_some hfind
      cases h
      exact eq_of_beq this

/-- A resolved content record carries the id it was looked up by
(the `find?` predicates in `getContentById` compare ids). -/
theorem getContentById_id (d : Option ContentData) (cid : String) (c : ContentRecord)
    (h : getContentById d cid = some c) : c.id = cid := by
  match d with
  | none => simp [getContentById] at h
  | some ⟨hero, cats⟩ =>
    cases hero with
    | none => exact findInCategories_id cats cid c h
    | some hr =>
      simp only [getContentById] at h
      by_cases hid : (hr.id == cid) = true
      · rw [if_pos hid] at h
        cases h
        exact eq_of_beq hid
      · rw [if_neg hid] at h
        exact findInCategories_id cats cid c h

/-- Rewriting the first `my-list` category commutes with looking it up:
after `updateMyList cats f`, the first `my-list` category is the old one
with `f` applied to its items. -/
theorem findCat_updateMyList (cats : List Category) (f : List ContentRecord → List ContentRecord)
    (ml : Category) (h : findCat cats "my-list" = some ml) :
    findCat (updateMyList cats f) "my-list" = some { ml with items := f ml.items } := by
  induction cats with
  | nil => simp [findCat] at h
  | cons hd tl ih =>
    simp only [findCat, updateMyList] at h ⊢
    by_cases hid : (hd.id == "my-list") = true
    · rw [if_pos hid] at h
      cases h
      simp [hid, findCat]
    · rw [if_neg hid] at h
      simp only [if_neg hid, findCat, hid, ite_false]
      exact ih h

/-- Two successive rewrites of the first `my-list` category compose. -/
theorem updateMyList_updateMyList (cats : List Category)
    (f g : List ContentRecord → List ContentRecord) :
    updateMyList (updateMyList cats f) g = updateMyList cats (fun items => g (f items)) := by
  induction cats with
  | nil => simp [updateMyList]
  | cons hd tl ih =>
    by_cases hid : (hd.id == "my-list") = true
    · simp [updateMyList, hid]
    · simp [updateMyList, hid, ih]

/-- Rewriting the first `my-list` category's items to their current
value leaves the category list unchanged. -/
theorem updateMyList_self (cats : List Category) (ml : Category)
    (h : findCat cats "my-list" = some ml) :
    updateMyList cats (fun _ => ml.items) = cats := by
  induction cats with
  | nil => simp [updateMyList]
  | cons hd tl ih =>
    simp only [findCat] at h
    by_cases hid : (hd.id == "my-list") = true
    · rw [if_pos hid] at h
      cases h
      simp [updateMyList, hid]
    · rw [if_neg hid] at h
      simp [updateMyList, hid, ih h]

/-! ## Claim C1 -/

/-- The concrete interleaving refuting claim C1: a momentum settle to
1000 over 400ms starts at `t = 0`; at `t = 50` a second animation to 200
over 300ms is started while the first is in flight. -/
def c1Run : RowSim :=
  let r0 : RowSim := ⟨0, [], 0⟩
  let r1 := startAnim r0 1000 400 Easing.outCubic 0
  let r2 := frame r1 50
  let r3 := startAnim r2 200 300 Easing.inOutCubic 50
  let r4 := frame r3 200
  let r5 := frame r4 350
  frame r5 400

/-- The intermediate state of `c1Run` just after the `t = 200` frame
(both chains still in flight). -/
def c1Mid : RowSim :=
  let r0 : RowSim := ⟨0, [], 0⟩
  let r1 := startAnim r0 1000 400 Easing.outCubic 0
  let r2 := frame r1 50
  let r3 := startAnim r2 200 300 Easing.inOutCubic 50
  frame r3 200

/-- Claim C1 is false on the code: starting a second scroll animation
(target 200) while one is in flight (target 1000) leaves both
`requestAnimationFrame` chains live — at the `t = 200` frame two
interpolations run against the same row — both chains complete (two
completions, not exactly one), and the row comes to rest at the OLD
request's destination 1000, not the newest request's destination 200. -/
theorem c1_counterexample :
    liveCount c1Mid = 2 ∧ c1Run.completions = 2 ∧
    c1Run.scrollLeft = 1000 ∧ c1Run.scrollLeft ≠ 200 := by
  norm_num [c1Run, c1Mid, frame, frameList, startAnim, animValue, animProgress, easeval,
    liveCount]

/-- Claim C1 amended: starting a new scroll animation for a row that
already has one in flight does not cancel the old one — `smoothScrollTo`
/ `smoothScrollToPosition` only capture the current offset and register
one more frame chain, leaving every existing chain (live or finished)
and the completion count untouched, so the number of live interpolations
on the row grows by one and two interpolations can run against the same
row concurrently. -/
theorem c1_amended (s : RowSim) (target duration : ℚ) (e : Easing) (t : ℚ) :
    (startAnim s target duration e t).anims
        = s.anims ++ [⟨s.scrollLeft, target, t, duration, e, false⟩]
    ∧ (startAnim s target duration e t).scrollLeft = s.scrollLeft
    ∧ (startAnim s target duration e t).completions = s.completions
    ∧ liveCount (startAnim s target duration e t) = liveCount s + 1 := by
  refine ⟨rfl, rfl, rfl, ?_⟩
  simp [liveCount, startAnim, List.filter_append]

/-! ## Claim C2 -/

/-- Claim C2: on releasing a drag gesture, `handleTouchEnd` activates
momentum iff the release velocity magnitude exceeds 0.5 px/ms and the
gesture duration is under 300ms; an activated request targets
`clamp(scrollLeft + velocityX * 200, 0, maxScroll)` with a 400ms settle
whose final frame writes exactly the target; without activation no
animation is requested and the handler leaves the offset exactly where
it was at release.  In particular a 250ms drag released with velocity
0.8 px/ms at offset 400 with maxOffset 1200 requests a settle to 560. -/
theorem handleTouchEnd_momentum (st : TouchState) (g : SliderGeom) (sl t : ℚ)
    (hdrag : st.isDragging = true) :
    ((handleTouchEnd st g sl t).2.2.isSome = true ↔
      (|st.velocityX| > 1/2 ∧ t - st.startTime < 300))
    ∧ (∀ tgt dur : ℚ, (handleTouchEnd st g sl t).2.2 = some (tgt, dur) →
        tgt = max 0 (min (g.scrollWidth - g.clientWidth) (sl + st.velocityX * 200))
        ∧ dur = 400
        ∧ ∀ t' : ℚ, 0 < dur → dur ≤ t' - t →
            animValue ⟨sl, tgt, t, dur, Easing.outCubic, false⟩ t' = tgt)
    ∧ ((handleTouchEnd st g sl t).2.2 = none → (handleTouchEnd st g sl t).2.1 = sl)
    ∧ (handleTouchEnd
        { startX := 0, startY := 0, startScrollLeft := 400, startTime := 0,
          lastX := 0, lastTime := 0, velocityX := 4/5,
          isScrolling := true, isDragging := true }
        ⟨2000, 800⟩ 400 250).2.2 = some (560, 400) := by
  refine ⟨?_, ?_, ?_, ?_⟩
  · by_cases hc : |st.velocityX| > 1/2 ∧ t - st.startTime < 300
    · simp [handleTouchEnd, hdrag, hc]
    · simp [handleTouchEnd, hdrag, hc]
  · intro tgt dur hreq
    simp only [handleTouchEnd, hdrag, Bool.not_true, Bool.false_eq_true, if_false] at hreq
    split at hreq
    · obtain ⟨htgt, hdur⟩ := (Prod.mk.injEq ..).mp (Option.some.inj hreq)
      subst htgt
      subst hdur
      refine ⟨rfl, rfl, ?_⟩
      intro t' hd hle
      exact animValue_end _ _ hd (by simpa using hle)
    · exact absurd hreq (by simp)
  · intro _
    simp [handleTouchEnd, hdrag]
  · norm_num [handleTouchEnd, abs_of_pos]

/-- Witness for `handleTouchEnd_momentum`: the 250ms, 0.8 px/ms release
of the claim's concrete scenario is a dragging release. -/
theorem handleTouchEnd_momentum_witness :
    ({ startX := 0, startY := 0, startScrollLeft := 400, startTime := 0,
       lastX := 0, lastTime := 0, velocityX := 4/5,
       isScrolling := true, isDragging := true : TouchState }.isDragging = true)
    ∧ ((handleTouchEnd
        { startX := 0, startY := 0, startScrollLeft := 400, startTime := 0,
          lastX := 0, lastTime := 0, velocityX := 4/5,
          isScrolling := true, isDragging := true }
        ⟨2000, 800⟩ 400 250).2.2 = some (560, 400)) :=
  ⟨rfl, (handleTouchEnd_momentum
    { startX := 0, startY := 0, startScrollLeft := 400, startTime := 0,
      lastX := 0, lastTime := 0, velocityX := 4/5,
      isScrolling := true, isDragging := true }
    ⟨2000, 800⟩ 400 250 rfl).2.2.2⟩

/-! ## Claim C6 -/

/-- Claim C6 is false on the code: the vertical-dominance yield is not a
one-shot decision.  A session whose first move sample is vertically
dominant (deltaY 20 beats deltaX 0) leaves the closure state completely
unchanged — nothing is latched — and the very next move sample
(deltaX 30 beats deltaY 25) is re-evaluated and transitions the same
session to dragging. -/
theorem c6_counterexample :
    (handleTouchMove (handleTouchStart 100 100 0 0) ⟨2000, 800⟩ 0 100 80 10)
        = (handleTouchStart 100 100 0 0, 0)
    ∧ (handleTouchMove
        (handleTouchMove (handleTouchStart 100 100 0 0) ⟨2000, 800⟩ 0 100 80 10).1
        ⟨2000, 800⟩ 0 70 75 20).1.isDragging = true := by
  norm_num [handleTouchMove, handleTouchStart]

/-- Claim C6 amended: a vertically-dominant move sample (beyond the 10px
threshold) makes `handleTouchMove` return early with the session state
and offset untouched, so the yield lasts only for that sample and the
decision is re-evaluated on every later move sample of the same contact
(which may still transition the session to dragging, as the
counterexample shows); the transition into `isDragging` is one-way under
move samples and is ended only by the release handler. -/
theorem c6_amended (st : TouchState) (g : SliderGeom) (sl x y t : ℚ) :
    (st.isScrolling = false → st.isDragging = false →
      |st.startY - y| > |st.startX - x| → |st.startY - y| > 10 →
      handleTouchMove st g sl x y t = (st, sl))
    ∧ (st.isDragging = true → (handleTouchMove st g sl x y t).1.isDragging = true)
    ∧ (handleTouchEnd st g sl t).1.isDragging = false := by
  refine ⟨?_, ?_, ?_⟩
  · intro hs hd hy h10
    simp [handleTouchMove, hs, hd, hy, h10]
  · intro hd
    simp only [handleTouchMove, hd, Bool.not_true, Bool.false_eq_true, false_and, if_false]
    split
    · exact hd
    · split
      · exact hd
      · exact hd
  · by_cases hd : st.isDragging = true
    · simp [handleTouchEnd, hd]
    · simp only [Bool.not_eq_true] at hd
      simp [handleTouchEnd, hd]

/-- Witness for `c6_amended`: a fresh session at origin (100, 100) with
a vertically-dominant sample at (100, 80). -/
theorem c6_amended_witness :
    ((handleTouchStart 100 100 0 0).isScrolling = false
      ∧ (handleTouchStart 100 100 0 0).isDragging = false
      ∧ |(handleTouchStart 100 100 0 0).startY - 80|
          > |(handleTouchStart 100 100 0 0).startX - 100|
      ∧ |(handleTouchStart 100 100 0 0).startY - 80| > 10)
    ∧ handleTouchMove (handleTouchStart 100 100 0 0) ⟨2000, 800⟩ 0 100 80 10
        = (handleTouchStart 100 100 0 0, 0) :=
  ⟨⟨rfl, rfl, by norm_num [handleTouchStart], by norm_num [handleTouchStart]⟩,
    (c6_amended (handleTouchStart 100 100 0 0) ⟨2000, 800⟩ 0 100 80 10).1
      rfl rfl (by norm_num [handleTouchStart]) (by norm_num [handleTouchStart])⟩

/-! ## Modal claims (C3, C4, C5) -/

/-- Concrete content data used by the modal scenarios: a hero record,
one ordinary category holding one movie, and an empty `my-list`
category. -/
def sampleData : ContentData :=
  ⟨some ⟨"hero1", "Hero"⟩, [⟨"trending", [⟨"m1", "Movie One"⟩]⟩, ⟨"my-list", []⟩]⟩

/-- The listener bookkeeping invariant maintained by the stored-handler
discipline: a listener list is either empty or holds exactly the stored
handler. -/
def singleOrNone (stored : Option ℕ) (attached : List ℕ) : Bool :=
  attached == [] ||
    (match stored with
     | some h => attached == [h]
     | none => false)

/-- Both the document-keydown and overlay-click listener lists satisfy
the stored-handler discipline. -/
def listenerInv (s : ModalSim) : Bool :=
  singleOrNone s.storedKeydown s.attachedKeydown
    && singleOrNone s.storedOverlay s.attachedOverlay

/-- Under the stored-handler discipline, detaching the stored handler
empties the listener list. -/
theorem detach_of_singleOrNone (stored : Option ℕ) (attached : List ℕ)
    (h : singleOrNone stored attached = true) : detach stored attached = [] := by
  cases stored with
  | none =>
    simp only [singleOrNone, Bool.or_eq_true, beq_iff_eq] at h
    rcases h with h | h
    · simp [detach, h]
    · exact absurd h (by simp)
  | some hid =>
    simp only [singleOrNone, Bool.or_eq_true, beq_iff_eq] at h
    rcases h with h | h
    · simp [detach, h]
    · simp [detach, h]

/-- Unfolding lemma: `closeModal` leaves the keydown listener list as
produced by `removeModalEventListeners`. -/
theorem closeModal_attachedKeydown (s : ModalSim) :
    (closeModal s).attachedKeydown = detach s.storedKeydown s.attachedKeydown := rfl

/-- Unfolding lemma: `closeModal` leaves the overlay listener list as
produced by `removeModalEventListeners`. -/
theorem closeModal_attachedOverlay (s : ModalSim) :
    (closeModal s).attachedOverlay = detach s.storedOverlay s.attachedOverlay := rfl

/-- Unfolding lemma: the keydown handler stored by
`setupModalInteractions`. -/
theorem setupModalInteractions_storedKeydown (s : ModalSim) :
    (setupModalInteractions s).storedKeydown = some (s.nextId + 1) := rfl

/-- Unfolding lemma: the overlay handler stored by
`setupModalInteractions`. -/
theorem setupModalInteractions_storedOverlay (s : ModalSim) :
    (setupModalInteractions s).storedOverlay = some s.nextId := rfl

/-- `removeModalEventListeners` empties both listener lists whenever the
stored-handler discipline holds. -/
theorem removeModalEventListeners_clears (s : ModalSim) (h : listenerInv s = true) :
    (removeModalEventListeners s).attachedKeydown = []
    ∧ (removeModalEventListeners s).attachedOverlay = [] := by
  simp only [listenerInv, Bool.and_eq_true] at h
  exact ⟨detach_of_singleOrNone _ _ h.1, detach_of_singleOrNone _ _ h.2⟩

/-- `setupModalInteractions` re-establishes the stored-handler
discipline: afterwards each list holds exactly the freshly stored
handler. -/
theorem setupModalInteractions_inv (s : ModalSim) (h : listenerInv s = true) :
    (setupModalInteractions s).attachedKeydown = [s.nextId + 1]
    ∧ (setupModalInteractions s).attachedOverlay = [s.nextId]
    ∧ (setupModalInteractions s).storedKeydown = some (s.nextId + 1)
    ∧ (setupModalInteractions s).storedOverlay = some s.nextId
    ∧ listenerInv (setupModalInteractions s) = true := by
  obtain ⟨hk, ho⟩ := removeModalEventListeners_clears s h
  simp [setupModalInteractions, removeModalEventListeners] at hk ho ⊢
  simp [hk, ho, listenerInv, singleOrNone]

/-! ## Claim C3 -/

/-- Claim C3 is right but the code violates it: with `openModal("m1")`
followed by `closeModal()` before the ~100ms population delay elapses,
the deferred population callback still applies in full — it repopulates
the modal body with the content and re-attaches the modal-scoped
keydown listener — even though the modal has meanwhile been closed
(`currentModal` null, overlay hidden).  The source's `setTimeout`
callback contains no phase check, so the population is never
discarded. -/
theorem c3_code_bug :
    (firePopulation (closeModal (openModal (some sampleData) "m1" ModalSim.init))).populated
        = some ⟨"m1", "Movie One"⟩
    ∧ (firePopulation (closeModal (openModal (some sampleData) "m1" ModalSim.init))).attachedKeydown
        = [1]
    ∧ (firePopulation (closeModal (openModal (some sampleData) "m1" ModalSim.init))).currentModal
        = none
    ∧ (firePopulation (closeModal (openModal (some sampleData) "m1" ModalSim.init))).overlayHidden
        = true := by
  refine ⟨?_, ?_, ?_, ?_⟩ <;> rfl

/-! ## Claim C4 -/

/-- Claim C4: `openModal(X)` with a resolvable id, followed by the
deferred population, leaves the modal open (overlay revealed) with
`AppState.currentModal = X` and the resolved record (whose id is `X`)
populated; `openModal` with an id that fails resolution surfaces the
"Content not found" notification and returns with the state otherwise
completely unchanged — in particular a closed modal stays closed. -/
theorem openModal_resolution (d : Option ContentData) (cid : String) (s : ModalSim) :
    (∀ c : ContentRecord, getContentById d cid = some c → s.pendingPop = [] →
      (firePopulation (openModal d cid s)).currentModal = some cid
      ∧ (firePopulation (openModal d cid s)).overlayHidden = false
      ∧ (firePopulation (openModal d cid s)).scrollLocked = true
      ∧ (firePopulation (openModal d cid s)).populated = some c
      ∧ (firePopulation (openModal d cid s)).loading = false
      ∧ c.id = cid)
    ∧ (getContentById d cid = none →
        openModal d cid s
          = { s with notifications := s.notifications ++ ["Content not found"] }) := by
  constructor
  · intro c hres hpend
    have hopen : openModal d cid s
        = { s with currentModal := some cid
                   loading := true, populated := none
                   overlayHidden := false, overlayAriaHidden := false
                   scrollLocked := true, bodyModalOpen := true
                   pendingPop := s.pendingPop ++ [c] } := by
      simp [openModal, hres]
    rw [hopen, hpend]
    refine ⟨?_, ?_, ?_, ?_, ?_, getContentById_id d cid c hres⟩ <;>
      simp [firePopulation, setupModalInteractions, removeModalEventListeners]
  · intro hres
    simp [openModal, hres]

/-- Witness for `openModal_resolution`: resolving `"m1"` in the sample
data from the initial closed page, and failing to resolve `"nope"`. -/
theorem openModal_resolution_witness :
    (getContentById (some sampleData) "m1" = some ⟨"m1", "Movie One"⟩
      ∧ ModalSim.init.pendingPop = []
      ∧ (firePopulation (openModal (some sampleData) "m1" ModalSim.init)).currentModal
          = some "m1")
    ∧ (getContentById (some sampleData) "nope" = none
      ∧ openModal (some sampleData) "nope" ModalSim.init
          = { ModalSim.init with notifications := ["Content not found"] }) :=
  ⟨⟨rfl, rfl,
    ((openModal_resolution (some sampleData) "m1" ModalSim.init).1
      ⟨"m1", "Movie One"⟩ rfl rfl).1⟩,
   ⟨rfl, (openModal_resolution (some sampleData) "nope" ModalSim.init).2 rfl⟩⟩

/-! ## Claim C5 -/

/-- One full open-then-close interaction in which the deferred
population fires between the open and the close (the sequential,
non-racy order). -/
def modalCycle (d : Option ContentData) (cid : String) (s : ModalSim) : ModalSim :=
  closeModal (firePopulation (openModal d cid s))

/-- Claim C5 is false on the code for the open-then-close sequence in
which the close arrives before the ~100ms deferred population: the
population callback then re-attaches the modal-scoped keydown listener
after the close, so a modal-scoped listener does fire for a subsequent
unrelated Escape keypress even though the modal is closed. -/
theorem c5_counterexample :
    escapeListenerFires
        (firePopulation (closeModal (openModal (some sampleData) "m1" ModalSim.init))) = true
    ∧ (firePopulation (closeModal (openModal (some sampleData) "m1" ModalSim.init))).currentModal
        = none
    ∧ (firePopulation (closeModal (openModal (some sampleData) "m1" ModalSim.init))).overlayHidden
        = true := by
  refine ⟨?_, ?_, ?_⟩ <;> rfl

/-- Claim C5 amended: after an open-then-close sequence in which the
deferred population was applied before the close, the modal is closed
(`currentModal` null, overlay hidden), page scroll is unlocked, and all
modal-scoped listeners (document keydown and overlay click) are removed,
so no modal-scoped listener fires for a subsequent unrelated Escape
keypress; the stored-handler discipline is preserved by the cycle and at
most one keydown listener is ever attached, so listeners do not
accumulate across repeated open/close cycles. -/
theorem modal_cycle_clean (d : Option ContentData) (cid : String) (s : ModalSim)
    (hinv : listenerInv s = true) (hpend : s.pendingPop = []) :
    (modalCycle d cid s).currentModal = none
    ∧ (modalCycle d cid s).scrollLocked = false
    ∧ (modalCycle d cid s).bodyModalOpen = false
    ∧ (modalCycle d cid s).overlayHidden = true
    ∧ (modalCycle d cid s).overlayAriaHidden = true
    ∧ (modalCycle d cid s).attachedKeydown = []
    ∧ (modalCycle d cid s).attachedOverlay = []
    ∧ escapeListenerFires (modalCycle d cid s) = false
    ∧ pressEscape (modalCycle d cid s) = modalCycle d cid s
    ∧ listenerInv (modalCycle d cid s) = true
    ∧ (modalCycle d cid s).pendingPop = [] := by
  have hinv' := hinv
  simp only [listenerInv, Bool.and_eq_true] at hinv'
  obtain ⟨hk, ho⟩ := hinv'
  have hdk := detach_of_singleOrNone _ _ hk
  have hdo := detach_of_singleOrNone _ _ ho
  cases hres : getContentById d cid with
  | none =>
    have hcyc : modalCycle d cid s
        = closeModal { s with notifications := s.notifications ++ ["Content not found"] } := by
      simp [modalCycle, openModal, hres, firePopulation, hpend]
    rw [hcyc]
    refine ⟨rfl, rfl, rfl, rfl, rfl, hdk, hdo, ?_, ?_, ?_, hpend⟩
    · simp [escapeListenerFires, closeModal, removeModalEventListeners, hdk]
    · simp [pressEscape, closeModal, removeModalEventListeners]
    · simp [listenerInv, closeModal, removeModalEventListeners, singleOrNone, hdk, hdo]
  | some c =>
    have hcyc : modalCycle d cid s
        = closeModal (setupModalInteractions
            { s with currentModal := some cid
                     loading := false, populated := some c
                     overlayHidden := false, overlayAriaHidden := false
                     scrollLocked := true, bodyModalOpen := true
                     pendingPop := [] }) := by
      simp [modalCycle, openModal, hres, firePopulation, hpend]
    rw [hcyc]
    have hsetk : (setupModalInteractions
        { s with currentModal := some cid
                 loading := false, populated := some c
                 overlayHidden := false, overlayAriaHidden := false
                 scrollLocked := true, bodyModalOpen := true
                 pendingPop := [] }).attachedKeydown = [s.nextId + 1] := by
      simp [setupModalInteractions, removeModalEventListeners, hdk]
    have hseto : (setupModalInteractions
        { s with currentModal := some cid
                 loading := false, populated := some c
                 overlayHidden := false, overlayAriaHidden := false
                 scrollLocked := true, bodyModalOpen := true
                 pendingPop := [] }).attachedOverlay = [s.nextId] := by
      simp [setupModalInteractions, removeModalEventListeners, hdo]
    have hclk : (closeModal (setupModalInteractions
        { s with currentModal := some cid
                 loading := false, populated := some c
                 overlayHidden := false, overlayAriaHidden := false
                 scrollLocked := true, bodyModalOpen := true
                 pendingPop := [] })).attachedKeydown = [] := by
      rw [closeModal_attachedKeydown, setupModalInteractions_storedKeydown, hsetk]
      simp [detach]
    have hclo : (closeModal (setupModalInteractions
        { s with currentModal := some cid
                 loading := false, populated := some c
                 overlayHidden := false, overlayAriaHidden := false
                 scrollLocked := true, bodyModalOpen := true
                 pendingPop := [] })).attachedOverlay = [] := by
      rw [closeModal_attachedOverlay, setupModalInteractions_storedOverlay, hseto]
      simp [detach]
    refine ⟨rfl, rfl, rfl, rfl, rfl, hclk, hclo, ?_, ?_, ?_, rfl⟩
    · simp [escapeListenerFires, hclk]
    · simp [pressEscape, closeModal, removeModalEventListeners]
    · simp [listenerInv, singleOrNone, hclk, hclo]

/-- Witness for `modal_cycle_clean`: a full clean cycle on the sample
data from the initial closed page. -/
theorem modal_cycle_clean_witness :
    (listenerInv ModalSim.init = true ∧ ModalSim.init.pendingPop = [])
    ∧ (modalCycle (some sampleData) "m1" ModalSim.init).attachedKeydown = []
    ∧ escapeListenerFires (modalCycle (some sampleData) "m1" ModalSim.init) = false :=
  ⟨⟨rfl, rfl⟩,
   (modal_cycle_clean (some sampleData) "m1" ModalSim.init rfl rfl).2.2.2.2.2.1,
   (modal_cycle_clean (some sampleData) "m1" ModalSim.init rfl rfl).2.2.2.2.2.2.2.1⟩

/-! ## Claim C7 -/

/-- Claim C7 is false on the code in its percentage clause: two row
states (offsets 500 and 600 in a 2000/800 row) agree on both edge
predicates, yet `updateScrollButtons` writes different aria-label
percentages (42% and 50%), so the percentage label is not derived from
the two predicates alone. -/
theorem c7_counterexample :
    isAtStart ⟨500, 2000, 800⟩ = isAtStart ⟨600, 2000, 800⟩
    ∧ isAtEnd ⟨500, 2000, 800⟩ = isAtEnd ⟨600, 2000, 800⟩
    ∧ (updateScrollButtons ⟨500, 2000, 800⟩).2.2 = JSNum.num 42
    ∧ (updateScrollButtons ⟨600, 2000, 800⟩).2.2 = JSNum.num 50
    ∧ (updateScrollButtons ⟨500, 2000, 800⟩).2.2 ≠ (updateScrollButtons ⟨600, 2000, 800⟩).2.2 := by
  norm_num [isAtStart, isAtEnd, updateScrollButtons, jsDiv, jsMulConst, jsRound]

/-- Claim C7 amended: the edge detector reports at-start exactly when
`offset ≤ 2` and at-end exactly when
`offset + viewportWidth ≥ scrollWidth − 2`; each button's
enabled/disabled appearance and `aria-hidden` state are derived purely
from the respective predicate (equal predicate values force equal button
output, with no separate tracked state — `updateScrollButtons` is a pure
function of the current geometry); the percentage label, by contrast, is
computed directly from the geometry as
`round(scrollLeft / (scrollWidth − clientWidth) · 100)`, not from the
two predicates. -/
theorem updateScrollButtons_pure (m : RowMetrics) :
    (isAtStart m = true ↔ m.scrollLeft ≤ 2)
    ∧ (isAtEnd m = true ↔ m.scrollLeft + m.clientWidth ≥ m.scrollWidth - 2)
    ∧ (updateScrollButtons m).1 = (if isAtStart m then btnDisabled else btnEnabled)
    ∧ (updateScrollButtons m).2.1 = (if isAtEnd m then btnDisabled else btnEnabled)
    ∧ (∀ m' : RowMetrics, isAtStart m = isAtStart m' →
        (updateScrollButtons m).1 = (updateScrollButtons m').1)
    ∧ (∀ m' : RowMetrics, isAtEnd m = isAtEnd m' →
        (updateScrollButtons m).2.1 = (updateScrollButtons m').2.1)
    ∧ (updateScrollButtons m).2.2
        = jsRound (jsMulConst (jsDiv m.scrollLeft (m.scrollWidth - m.clientWidth)) 100) := by
  refine ⟨?_, ?_, rfl, rfl, ?_, ?_, rfl⟩
  · simp [isAtStart]
  · simp [isAtEnd]
  · intro m' h
    simp only [updateScrollButtons]
    rw [h]
  · intro m' h
    simp only [updateScrollButtons]
    rw [h]

/-- Witness for `updateScrollButtons_pure`: a mid-scroll 2000/800 row
compared with another mid-scroll state. -/
theorem updateScrollButtons_pure_witness :
    (isAtStart ⟨500, 2000, 800⟩ = true ↔ (500 : ℚ) ≤ 2)
    ∧ (isAtStart ⟨500, 2000, 800⟩ = isAtStart ⟨600, 2000, 800⟩ →
        (updateScrollButtons ⟨500, 2000, 800⟩).1 = (updateScrollButtons ⟨600, 2000, 800⟩).1) :=
  ⟨(updateScrollButtons_pure ⟨500, 2000, 800⟩).1,
   fun h => (updateScrollButtons_pure ⟨500, 2000, 800⟩).2.2.2.2.1 ⟨600, 2000, 800⟩ h⟩

/-! ## Claim C8 -/

/-- Claim C8: in a desktop-tier viewport (`innerWidth ≥ 1024`) the
per-click distance is `(200 + 20) * 4 = 880`; on a row with
`scrollWidth = 2000` and `clientWidth = 800` (`maxOffset = 1200`) three
consecutive right-button clicks starting at rest at offset 0 produce the
targets 880, 1200, 1200 — each within `[0, 1200]`, the third exactly
1200 — and no right-click target on this row ever exceeds 1200;
moreover each click's ease-in-out animation ends exactly at its target,
so each subsequent click indeed starts from the previous target. -/
theorem c8_three_clicks (w : ℚ) (hw : 1024 ≤ w) :
    getScrollAmount w = 880
    ∧ clickRightTarget 0 2000 800 (getScrollAmount w) = 880
    ∧ clickRightTarget 880 2000 800 (getScrollAmount w) = 1200
    ∧ clickRightTarget 1200 2000 800 (getScrollAmount w) = 1200
    ∧ (0 ≤ clickRightTarget 0 2000 800 (getScrollAmount w)
        ∧ clickRightTarget 0 2000 800 (getScrollAmount w) ≤ 1200)
    ∧ (0 ≤ clickRightTarget 880 2000 800 (getScrollAmount w)
        ∧ clickRightTarget 880 2000 800 (getScrollAmount w) ≤ 1200)
    ∧ (∀ sl amount : ℚ, clickRightTarget sl 2000 800 amount ≤ 1200)
    ∧ (∀ (sl tgt t₀ : ℚ) (dur t : ℚ), 0 < dur → dur ≤ t - t₀ →
        animValue ⟨sl, tgt, t₀, dur, Easing.inOutCubic, false⟩ t = tgt) := by
  have h640 : ¬(w < 640) := by linarith
  have h1024 : ¬(w < 1024) := by linarith
  have hamt : getScrollAmount w = 880 := by
    simp only [getScrollAmount, h640, h1024, if_false]
    norm_num
  refine ⟨hamt, ?_, ?_, ?_, ?_, ?_, ?_, ?_⟩
  · rw [hamt]; norm_num [clickRightTarget]
  · rw [hamt]; norm_num [clickRightTarget]
  · rw [hamt]; norm_num [clickRightTarget]
  · rw [hamt]; norm_num [clickRightTarget]
  · rw [hamt]; norm_num [clickRightTarget]
  · intro sl amount
    simp only [clickRightTarget]
    norm_num [min_le_left]
  · intro sl tgt t₀ dur t hd hle
    exact animValue_end _ _ hd (by simpa using hle)

/-- Witness for `c8_three_clicks`: a 1280px-wide desktop window. -/
theorem c8_three_clicks_witness :
    ((1024 : ℚ) ≤ 1280)
    ∧ (getScrollAmount 1280 = 880
        ∧ clickRightTarget 1200 2000 800 (getScrollAmount 1280) = 1200) :=
  ⟨by norm_num,
   (c8_three_clicks 1280 (by norm_num)).1,
   (c8_three_clicks 1280 (by norm_num)).2.2.2.1⟩

/-! ## Claim C9 -/

/-- Claim C9: for a row whose content does not overflow its viewport
(`scrollWidth = clientWidth`, hence `scrollLeft = 0`),
`updateScrollButtons` divides `scrollLeft` by
`scrollWidth − clientWidth` with no zero-divisor guard, so the aria-label
percentage is the NaN of a 0/0 division rather than a number. -/
theorem c9_nan_percentage (m : RowMetrics)
    (hw : m.scrollWidth = m.clientWidth) (hl : m.scrollLeft = 0) :
    (updateScrollButtons m).2.2 = JSNum.nan := by
  simp [updateScrollButtons, jsDiv, jsMulConst, jsRound, hw, hl]

/-- Witness for `c9_nan_percentage`: an 800px row whose content is
exactly 800px wide. -/
theorem c9_nan_percentage_witness :
    ((800 : ℚ) = 800 ∧ (0 : ℚ) = 0)
    ∧ (updateScrollButtons ⟨0, 800, 800⟩).2.2 = JSNum.nan :=
  ⟨⟨rfl, rfl⟩, c9_nan_percentage ⟨0, 800, 800⟩ rfl rfl⟩

/-! ## Claim C10 -/

/-- Helper: `addToMyList` of an id already in the `my-list` category
returns false and leaves the data untouched, whatever the resolution
result. -/
theorem addToMyList_already (d : ContentData) (cid : String) (ml : Category)
    (hcat : findCat d.categories "my-list" = some ml)
    (hin : ml.items.any (fun item => item.id == cid) = true) :
    addToMyList d cid = (d, false) := by
  cases hres : getContentById (some d) cid with
  | none => simp [addToMyList, hres]
  | some c1 => simp [addToMyList, hres, hcat, hin]

/-- Claim C10: for a resolvable content id not currently in the
`my-list` category, `addToMyList` returns true and appends exactly the
resolved record to that category; an immediately repeated `addToMyList`
returns false and leaves the data unchanged; a subsequent
`removeFromMyList` returns true and restores the data to its state
before the first add (add-then-remove round-trips); and
`removeFromMyList` of an id not in the list returns false and changes
nothing. -/
theorem addRemoveMyList_roundtrip (data : ContentData) (cid : String)
    (c : ContentRecord) (myList : Category)
    (hres : getContentById (some data) cid = some c)
    (hcat : findCat data.categories "my-list" = some myList)
    (hnotin : myList.items.any (fun item => item.id == cid) = false) :
    (addToMyList data cid).2 = true
    ∧ findCat (addToMyList data cid).1.categories "my-list"
        = some { myList with items := myList.items ++ [c] }
    ∧ addToMyList (addToMyList data cid).1 cid = ((addToMyList data cid).1, false)
    ∧ removeFromMyList (addToMyList data cid).1 cid = (data, true)
    ∧ removeFromMyList data cid = (data, false) := by
  have hid : c.id = cid := getContentById_id _ _ _ hres
  have hnotin' : ∀ item ∈ myList.items, ¬(item.id == cid) = true := by
    simpa [List.any_eq_false] using hnotin
  have hadd : addToMyList data cid
      = ({ data with categories :=
            updateMyList data.categories (fun items => items ++ [c]) }, true) := by
    simp [addToMyList, hres, hcat, hnotin]
  have hfilter : myList.items.filter (fun item => !(item.id == cid)) = myList.items := by
    rw [List.filter_eq_self]
    intro a ha
    simpa using hnotin' a ha
  have hcat1 : findCat (updateMyList data.categories (fun items => items ++ [c])) "my-list"
      = some { myList with items := myList.items ++ [c] } :=
    findCat_updateMyList data.categories _ myList hcat
  refine ⟨by rw [hadd], by rw [hadd]; exact hcat1, ?_, ?_, ?_⟩
  · rw [hadd]
    exact addToMyList_already _ cid _ hcat1 (by simp [hid])
  · rw [hadd]
    have hfilter2 : (myList.items ++ [c]).filter (fun item => !(item.id == cid))
        = myList.items := by
      rw [List.filter_append, hfilter]
      simp [hid]
    have hlen : (myList.items ++ [c]).length = myList.items.length + 1 := by
      simp
    simp only [removeFromMyList, hcat1, hfilter2, hlen]
    rw [updateMyList_updateMyList, updateMyList_self data.categories myList hcat]
    simp [Nat.lt_succ_self]
  · simp only [removeFromMyList, hcat, hfilter]
    rw [updateMyList_self data.categories myList hcat]
    simp [lt_irrefl]

/-- Witness for `addRemoveMyList_roundtrip`: adding and removing
`"m1"` (resolved from the trending category) on the sample data, whose
`my-list` category is empty. -/
theorem addRemoveMyList_roundtrip_witness :
    (getContentById (some sampleData) "m1" = some ⟨"m1", "Movie One"⟩
      ∧ findCat sampleData.categories "my-list" = some ⟨"my-list", []⟩
      ∧ (Category.mk "my-list" []).items.any (fun item => item.id == "m1") = false)
    ∧ (addToMyList sampleData "m1").2 = true
    ∧ removeFromMyList (addToMyList sampleData "m1").1 "m1" = (sampleData, true) :=
  ⟨⟨rfl, rfl, rfl⟩,
   (addRemoveMyList_roundtrip sampleData "m1" ⟨"m1", "Movie One"⟩ ⟨"my-list", []⟩
      rfl rfl rfl).1,
   (addRemoveMyList_roundtrip sampleData "m1" ⟨"m1", "Movie One"⟩ ⟨"my-list", []⟩
      rfl rfl rfl).2.2.2.1⟩

end Spec2Proof
